import Mathlib

/-!
Shallow embedding of the Glow CPU device manager
(`lib/Backends/CPU/CPUDeviceManager.h` / `.cpp`).

Machine integers (the `uint64_t` memory counters and raw pointer values) are
modelled as `Nat` with explicit arithmetic modulo 2^64 wherever the source
performs unsigned arithmetic.  Fallible raw allocation (`alignedAlloc`) is
modelled by an allocation oracle `Nat → Option Nat` mapping a requested size
to the returned address; `none` models a null return.  Telemetry
(`exportMemoryCounters`, `Stats()`, trace events) carries no state that the
source ever reads back, so it is not part of the state; the `module` pointer
is only forwarded to callbacks and to constant collection, so callbacks are
modelled without it.
-/

/-- 2^64, the modulus of the source's `uint64_t` arithmetic. -/
def U64MOD : Nat := 18446744073709551616

/-- Unsigned 64-bit addition, as in the source's `uint64_t` sums. -/
def add64 (a b : Nat) : Nat := (a + b) % U64MOD

/-- Unsigned 64-bit subtraction, as in the source's `uint64_t` differences. -/
def sub64 (a b : Nat) : Nat := (a + U64MOD - b % U64MOD) % U64MOD

/-- Lookup by key, modelling `std::map::find` / `std::map::count` on the
name-keyed maps `functions_` and `buffers_`. -/
def lookupEntry {α : Type} : List (String × α) → String → Option α
  | [], _ => none
  | (k, v) :: rest, key => if k = key then some v else lookupEntry rest key

/-- Removal by key, modelling `std::map::erase`.  In every state reachable by
the device-manager operations the keys are distinct, so removing every entry
with the key coincides with `std::map` behaviour. -/
def eraseEntry {α : Type} : List (String × α) → String → List (String × α)
  | [], _ => []
  | (k, v) :: rest, key =>
    if k = key then eraseEntry rest key else (k, v) :: eraseEntry rest key

/-- `RuntimeBundle`: per-function memory metadata.  `symbolTable` maps a
symbol name to its byte offset (`symbolInfo.offset`); `constants` records
whether the constants blob pointer is non-null (`getConstants() != nullptr`). -/
structure RuntimeBundle where
  activationsSize : Nat
  mutableWeightSize : Nat
  symbolTable : List (String × Nat)
  constants : Bool

deriving instance DecidableEq for RuntimeBundle

/-- A compiled function as the device manager sees it: its compile-backend
name, its `RuntimeBundle`, and the outcome its `execute` entry point returns
(`none` = `llvm::Error::success()`, `some msg` = a failing `llvm::Error`). -/
structure CompiledFunction where
  compileBackendName : String
  bundle : RuntimeBundle
  executeResult : Option String

deriving instance DecidableEq for CompiledFunction

/-- One pair of raw regions (`SingleRequestBuffer` in the header). -/
structure SingleRequestBuffer where
  activationsBuffer : Nat
  weightsBuffer : Nat

deriving instance DecidableEq for SingleRequestBuffer

/-- `CPUBuffer`: the per-function device buffer.  The header declares the
free sequence `reqBuffers_` and the busy map `busyRequestBuffers_`
(`kMaxRequestsSupported = 1`); the implementation file constructs the buffer
directly from the two raw regions and exposes them via
`getActivationsBuffer` / `getWeightsBuffer`.  Both views are carried here. -/
structure CPUBuffer where
  reqBuffers : List SingleRequestBuffer
  busyRequestBuffers : List (Nat × SingleRequestBuffer)
  activationsSize : Nat
  weightsSize : Nat
  activationsBuffer : Nat
  weightsBuffer : Nat

deriving instance DecidableEq for CPUBuffer

/-- The `CPUBuffer` constructor used by `addNetworkImpl`: stores the two raw
regions (a null pointer is address 0) and starts with the single
`kMaxRequestsSupported` slot free and no busy entries. -/
def CPUBuffer.ofRaw (act : Nat) (actSize : Nat) (wgt : Nat) (wgtSize : Nat) :
    CPUBuffer :=
  { reqBuffers := [⟨act, wgt⟩]
    busyRequestBuffers := []
    activationsSize := actSize
    weightsSize := wgtSize
    activationsBuffer := act
    weightsBuffer := wgt }

/-- The device-manager state: `maxMemoryBytes_`, `usedMemoryBytes_`, the
registry `functions_` and the buffer map `buffers_`.  `functionCost` models
the base class's flat per-function cost `functionCost_` (the base
`DeviceManager` is outside this file's source; the spec describes it as a
flat unit-cost abstraction, so the cost is carried as an arbitrary field). -/
structure CPUDeviceManager where
  maxMemoryBytes : Nat
  usedMemoryBytes : Nat
  functionCost : Nat
  functions : List (String × CompiledFunction)
  buffers : List (String × CPUBuffer)

deriving instance DecidableEq for CPUDeviceManager

/-- One invocation of the `readyCB` callback of `addNetworkImpl`.  The
duplicate-name and wrong-backend failures are the two generic
`MAKE_ERR(...)` messages; both the capacity failure and the allocation
failure use `RUNTIME_OUT_OF_DEVICE_MEMORY` with the same message. -/
inductive ReadyResult where
  | success : ReadyResult
  | duplicateFunction : String → ReadyResult
  | wrongBackend : String → ReadyResult
  | outOfDeviceMemory : ReadyResult

deriving instance DecidableEq for ReadyResult

/-- Result of a `load`: the device state after the call and the list of
`readyCB` invocations it performed, in order. -/
structure LoadResult where
  finalState : CPUDeviceManager
  callbacks : List ReadyResult

deriving instance DecidableEq for LoadResult

/-- The validation loop at the top of `addNetworkImpl`: for each function of
the batch, in order, first the duplicate-name check against the registry,
then the compile-backend check; the first failure is returned. -/
def addNetworkCheck (registry : List (String × CompiledFunction)) :
    List (String × CompiledFunction) → Option ReadyResult
  | [] => none
  | (name, func) :: rest =>
    if (lookupEntry registry name).isSome then
      some (ReadyResult.duplicateFunction name)
    else if func.compileBackendName ≠ "CPU" then
      some (ReadyResult.wrongBackend name)
    else addNetworkCheck registry rest

/-- The registration loop of `addNetworkImpl`.  For each function: collect
constants if the bundle has none, emplace into `functions_`, charge
`functionCost_` to `usedMemoryBytes_`, allocate the activations and weights
regions, emit an error callback if either allocation returned null (the
source does NOT return here), construct the `CPUBuffer` from the raw
pointers, and emplace it into `buffers_`. -/
def addNetworkLoadLoop (alloc : Nat → Option Nat) :
    CPUDeviceManager → List (String × CompiledFunction) →
    CPUDeviceManager × List ReadyResult
  | st, [] => (st, [])
  | st, (name, func) :: rest =>
    let func2 := if func.bundle.constants then func
      else { func with bundle := { func.bundle with constants := true } }
    let stA := { st with
      functions := st.functions ++ [(name, func2)]
      usedMemoryBytes := add64 st.usedMemoryBytes st.functionCost }
    let act := alloc func2.bundle.activationsSize
    let wgt := alloc func2.bundle.mutableWeightSize
    let errs := if act.isNone || wgt.isNone then [ReadyResult.outOfDeviceMemory]
      else []
    let buf := CPUBuffer.ofRaw (act.getD 0) func2.bundle.activationsSize
      (wgt.getD 0) func2.bundle.mutableWeightSize
    let stB := { stA with buffers := stA.buffers ++ [(name, buf)] }
    let res := addNetworkLoadLoop alloc stB rest
    (res.1, errs ++ res.2)

/-- `CPUDeviceManager::addNetworkImpl`: validation loop, then the capacity
admission check `usedMemoryBytes_ + functionCost_ > maxMemoryBytes_` (a
single `functionCost_`, independent of the batch size), then the
registration loop, then the final `readyCB` success invocation. -/
def addNetworkImpl (alloc : Nat → Option Nat) (st : CPUDeviceManager)
    (functions : List (String × CompiledFunction)) : LoadResult :=
  match addNetworkCheck st.functions functions with
  | some e => ⟨st, [e]⟩
  | none =>
    if add64 st.usedMemoryBytes st.functionCost > st.maxMemoryBytes then
      ⟨st, [ReadyResult.outOfDeviceMemory]⟩
    else
      let res := addNetworkLoadLoop alloc st functions
      ⟨res.1, res.2 ++ [ReadyResult.success]⟩

/-- One invocation of the `evictCB` callback of `evictNetworkImpl`. -/
inductive EvictOutcome where
  | success : EvictOutcome
  | netNotFound : EvictOutcome

deriving instance DecidableEq for EvictOutcome

/-- `CPUDeviceManager::evictNetworkImpl`: if `functions_.erase(name)` removed
an entry, subtract `functionCost_` from `usedMemoryBytes_`, erase the buffer,
and report success; otherwise report `RUNTIME_NET_NOT_FOUND` and change
nothing. -/
def evictNetworkImpl (st : CPUDeviceManager) (functionName : String) :
    CPUDeviceManager × List (String × EvictOutcome) :=
  if (lookupEntry st.functions functionName).isSome then
    ({ st with
        functions := eraseEntry st.functions functionName
        usedMemoryBytes := sub64 st.usedMemoryBytes st.functionCost
        buffers := eraseEntry st.buffers functionName },
     [(functionName, EvictOutcome.success)])
  else
    (st, [(functionName, EvictOutcome.netNotFound)])

/-- The execution context carried through `run`: opaque caller payload plus
the `CPUDeviceBindings` (activations pointer, weights pointer) that
`runFunctionImpl` attaches before executing. -/
structure ExecutionContext where
  payload : Nat
  deviceBindings : Option (Nat × Nat)

deriving instance DecidableEq for ExecutionContext

/-- Outcome delivered to `resultCB`: success, the error returned by
`execute`, or `RUNTIME_NET_NOT_FOUND`. -/
inductive RunOutcome where
  | success : RunOutcome
  | execError : String → RunOutcome
  | netNotFound : RunOutcome

deriving instance DecidableEq for RunOutcome

/-- A buffer-pool operation on a `CPUBuffer`: a `getUnownedRequestBuffer`
call keyed by a run identifier, or a `freeRequestBuffer` call.  The run path
of the source records which of these it performs. -/
inductive PoolOp where
  | acquire : Nat → PoolOp
  | release : Nat → PoolOp

deriving instance DecidableEq for PoolOp

/-- Result of a `run`: the device state after the call, the list of
`resultCB` invocations performed (run id, outcome, returned context), and
the list of buffer-pool operations the dispatcher performed. -/
structure RunEffect where
  finalState : CPUDeviceManager
  callbacks : List (Nat × RunOutcome × ExecutionContext)
  poolOps : List PoolOp

deriving instance DecidableEq for RunEffect

/-- `CPUDeviceManager::runFunctionImpl`: look up the function; if absent,
invoke `resultCB` with `RUNTIME_NET_NOT_FOUND` and the untouched context.
Otherwise read the function's buffer directly via `buffers_[function]`
(`none` on a missing buffer models the null-`unique_ptr` dereference of
`operator[]`, which is undefined behaviour), attach the device bindings to
the context, execute, and invoke `resultCB` once with the outcome.  No
`getUnownedRequestBuffer` / `freeRequestBuffer` call is made on either
path, so the recorded pool-operation list is empty. -/
def runFunctionImpl (st : CPUDeviceManager) (id : Nat) (function : String)
    (context : ExecutionContext) : Option RunEffect :=
  match lookupEntry st.functions function with
  | none => some ⟨st, [(id, RunOutcome.netNotFound, context)], []⟩
  | some func =>
    match lookupEntry st.buffers function with
    | none => none
    | some buf =>
      let context2 := { context with
        deviceBindings := some (buf.activationsBuffer, buf.weightsBuffer) }
      let outcome := match func.executeResult with
        | none => RunOutcome.success
        | some msg => RunOutcome.execError msg
      some ⟨st, [(id, outcome, context2)], []⟩

/-- Result of `getRemotePeerToPeerAddress`: a resolved address, the
`RUNTIME_ERROR` "Failed to find remote address." result, or undefined
behaviour (a null or end-iterator dereference in the source). -/
inductive PeerAddrResult where
  | ok : Nat → PeerAddrResult
  | runtimeError : PeerAddrResult
  | undefinedBehavior : PeerAddrResult

deriving instance DecidableEq for PeerAddrResult

/-- `CPUDeviceManager::getRemotePeerToPeerAddress`.  Placeholder bindings are
modelled by the list of placeholder names they contain;
`getPlaceholderByName "recv_input"` yields a placeholder named
`"recv_input"` when present and null otherwise.  When the symbol is missing
from the symbol table the source prints "Did not find symbol" and then reads
`it->second` from the end iterator — undefined behaviour, not an error
return.  When the receiving function is not loaded the source returns the
`RUNTIME_ERROR` result. -/
def getRemotePeerToPeerAddress (st : CPUDeviceManager) (channelId : Int)
    (bindings : List String) : PeerAddrResult :=
  match lookupEntry st.functions "recv_func" with
  | some func =>
    match lookupEntry st.buffers "recv_func" with
    | none => PeerAddrResult.undefinedBehavior
    | some buf =>
      if "recv_input" ∈ bindings then
        match lookupEntry func.bundle.symbolTable "recv_input" with
        | some offset => PeerAddrResult.ok (add64 buf.weightsBuffer offset)
        | none => PeerAddrResult.undefinedBehavior
      else PeerAddrResult.undefinedBehavior
  | none => PeerAddrResult.runtimeError

/-- `CPUDeviceManager::getMaximumMemory`. -/
def getMaximumMemory (st : CPUDeviceManager) : Nat := st.maxMemoryBytes

/-- `CPUDeviceManager::getAvailableMemory`:
`maxMemoryBytes_ - usedMemoryBytes_` in `uint64_t` arithmetic. -/
def getAvailableMemory (st : CPUDeviceManager) : Nat :=
  sub64 st.maxMemoryBytes st.usedMemoryBytes

/-- `CPUDeviceManager::isMemoryAvailable`:
`maxMemoryBytes_ >= usedMemoryBytes_ + estimate` in `uint64_t` arithmetic. -/
def isMemoryAvailable (st : CPUDeviceManager) (estimate : Nat) : Bool :=
  decide (add64 st.usedMemoryBytes estimate ≤ st.maxMemoryBytes)

/-- `DeviceConfig`, reduced to the one field this code reads. -/
structure DeviceConfig where
  deviceMemory : Nat

deriving instance DecidableEq for DeviceConfig

/-- `DeviceConfig::setDeviceMemory`. -/
def setDeviceMemory (config : DeviceConfig) (m : Nat) : DeviceConfig :=
  { config with deviceMemory := m }

/-- Modelled from the spec: the `DeviceManager` base-class constructor is not
part of this file's source; per the spec, the device configuration supplies
`maximumBytes` at construction, the device starts with nothing loaded and a
zero used-memory counter, and the flat per-function cost is a construction
parameter. -/
def CPUDeviceManager.ofConfig (config : DeviceConfig) (functionCost : Nat) :
    CPUDeviceManager :=
  { maxMemoryBytes := config.deviceMemory
    usedMemoryBytes := 0
    functionCost := functionCost
    functions := []
    buffers := [] }

/-- `createCPUDeviceManager`: when the `cpu-memory` flag value (an
`unsigned`, so below 2^32) is nonzero, replace the configured device memory
with the flag value converted from kilobytes to bytes
(`uint64_t{GlowCPUMemory} * 1024`); otherwise use the config unchanged. -/
def createCPUDeviceManager (glowCPUMemory : Nat) (config : DeviceConfig)
    (functionCost : Nat) : CPUDeviceManager :=
  if glowCPUMemory ≠ 0 then
    CPUDeviceManager.ofConfig
      (setDeviceMemory config ((glowCPUMemory * 1024) % U64MOD)) functionCost
  else
    CPUDeviceManager.ofConfig config functionCost

/-! Concrete inputs used by the claim theorems. -/

/-- A well-formed CPU compiled function used as a concrete input. -/
def cpuFn : CompiledFunction :=
  { compileBackendName := "CPU"
    bundle := { activationsSize := 16, mutableWeightSize := 16,
                symbolTable := [], constants := true }
    executeResult := none }

/-- Allocation oracle on which every `alignedAlloc` succeeds. -/
def allocOK : Nat → Option Nat := fun _ => some 4096

/-- Allocation oracle on which every `alignedAlloc` returns null. -/
def allocFail : Nat → Option Nat := fun _ => none

/-- Device with capacity 500, flat function cost 400, nothing loaded. -/
def C1state : CPUDeviceManager :=
  { maxMemoryBytes := 500, usedMemoryBytes := 0, functionCost := 400,
    functions := [], buffers := [] }

/-- C1: the capacity check of `addNetworkImpl` admits a batch against a
single `functionCost_` but charges `functionCost_` per function, so a
two-function batch on a device with `maxMemoryBytes_ = 500` and cost 400
reports success while leaving `usedMemoryBytes_ = 800 > 500`, violating the
invariant `usedBytes ≤ maximumBytes` (and the source's own
`assert(usedMemoryBytes_ <= maxMemoryBytes_)`). -/
theorem C1_code_eval :
    (addNetworkImpl allocOK C1state [("a", cpuFn), ("b", cpuFn)]).callbacks
        = [ReadyResult.success] ∧
    (addNetworkImpl allocOK C1state
        [("a", cpuFn), ("b", cpuFn)]).finalState.usedMemoryBytes = 800 ∧
    ¬ (addNetworkImpl allocOK C1state
        [("a", cpuFn), ("b", cpuFn)]).finalState.usedMemoryBytes
        ≤ C1state.maxMemoryBytes := by
  decide

/-- Device with capacity 1000, flat function cost 1, nothing loaded. -/
def C2state : CPUDeviceManager :=
  { maxMemoryBytes := 1000, usedMemoryBytes := 0, functionCost := 1,
    functions := [], buffers := [] }

/-- C2: when buffer allocation fails inside the registration loop,
`addNetworkImpl` fires `readyCB` with the allocation-failure error but does
not return: the loop continues, the function stays registered, and the
final success callback fires as well — two `readyCB` invocations for one
load, with the function left registered. -/
theorem C2_code_eval :
    (addNetworkImpl allocFail C2state [("f", cpuFn)]).callbacks
        = [ReadyResult.outOfDeviceMemory, ReadyResult.success] ∧
    (lookupEntry (addNetworkImpl allocFail C2state
        [("f", cpuFn)]).finalState.functions "f").isSome := by
  decide

/-- The well-known receiving function, loaded with an empty symbol table. -/
def recvFn : CompiledFunction :=
  { compileBackendName := "CPU"
    bundle := { activationsSize := 8, mutableWeightSize := 8,
                symbolTable := [], constants := true }
    executeResult := none }

/-- Device with `recv_func` loaded and its buffer present. -/
def C4state : CPUDeviceManager :=
  { maxMemoryBytes := 1000, usedMemoryBytes := 400, functionCost := 400,
    functions := [("recv_func", recvFn)],
    buffers := [("recv_func", CPUBuffer.ofRaw 4096 8 8192 8)] }

/-- C4: with `recv_func` loaded but `recv_input` absent from its symbol
table, `getRemotePeerToPeerAddress` does not fail with `SymbolNotFound`: the
source prints "Did not find symbol" and then dereferences the end iterator
(undefined behaviour), never producing an error result. -/
theorem C4_code_eval :
    getRemotePeerToPeerAddress C4state 0 ["recv_input"]
        = PeerAddrResult.undefinedBehavior ∧
    getRemotePeerToPeerAddress C4state 0 ["recv_input"]
        ≠ PeerAddrResult.runtimeError := by
  decide

/-- C6: evicting a name that is not registered invokes the callback once
with `FunctionNotFound` and returns the state unchanged: `usedMemoryBytes_`,
the function registry and the buffer map are all untouched. -/
theorem C6_evict_not_found (st : CPUDeviceManager) (name : String)
    (h : lookupEntry st.functions name = none) :
    evictNetworkImpl st name = (st, [(name, EvictOutcome.netNotFound)]) := by
  unfold evictNetworkImpl
  rw [h]
  simp

/-- C6 witness: evicting `"g"` from a concrete device that has only `"f"`
loaded reports `FunctionNotFound` and changes nothing. -/
theorem C6_evict_not_found_witness :
    evictNetworkImpl C4state "g" = (C4state, [("g", EvictOutcome.netNotFound)]) :=
  C6_evict_not_found C4state "g" (by decide)

/-- C9: running a function name that was never loaded invokes `resultCB`
exactly once, with `RUNTIME_NET_NOT_FOUND`, handing the execution context
back to the caller unchanged, and performs no state change and no pool
operation. -/
theorem C9_run_not_found (st : CPUDeviceManager) (id : Nat) (name : String)
    (ctx : ExecutionContext) (h : lookupEntry st.functions name = none) :
    runFunctionImpl st id name ctx
        = some ⟨st, [(id, RunOutcome.netNotFound, ctx)], []⟩ := by
  unfold runFunctionImpl
  rw [h]

/-- C9 witness: running `"g"` (never loaded) on a concrete device returns
`FunctionNotFound` with the identical context. -/
theorem C9_run_not_found_witness :
    runFunctionImpl C4state 3 "g" ⟨11, none⟩
        = some ⟨C4state, [(3, RunOutcome.netNotFound, ⟨11, none⟩)], []⟩ :=
  C9_run_not_found C4state 3 "g" ⟨11, none⟩ (by decide)

/-- C10: with a nonzero `cpu-memory` flag value the created device's maximum
memory is the flag value times 1024 (kilobytes converted to bytes); with a
zero flag value it is the configured device memory unchanged. -/
theorem C10_maximum_memory (g : Nat) (config : DeviceConfig) (cost : Nat)
    (hg : g < 4294967296) :
    (g ≠ 0 → getMaximumMemory (createCPUDeviceManager g config cost)
        = g * 1024) ∧
    (g = 0 → getMaximumMemory (createCPUDeviceManager g config cost)
        = config.deviceMemory) := by
  constructor
  · intro hne
    simp only [createCPUDeviceManager, if_pos hne, getMaximumMemory,
      CPUDeviceManager.ofConfig, setDeviceMemory]
    have hlt : g * 1024 < U64MOD := by
      unfold U64MOD
      omega
    exact Nat.mod_eq_of_lt hlt
  · intro hz
    simp [createCPUDeviceManager, hz, getMaximumMemory,
      CPUDeviceManager.ofConfig]

/-- C10 witness: flag value 2 gives maximum memory 2048; flag value 0 keeps
the configured 777. -/
theorem C10_maximum_memory_witness :
    getMaximumMemory (createCPUDeviceManager 2 ⟨777⟩ 1) = 2 * 1024 ∧
    getMaximumMemory (createCPUDeviceManager 0 ⟨777⟩ 1) = 777 :=
  ⟨(C10_maximum_memory 2 ⟨777⟩ 1 (by decide)).1 (by decide),
   (C10_maximum_memory 0 ⟨777⟩ 1 (by decide)).2 rfl⟩

/-- Device with one ordinary function `"f"` loaded and its buffer present. -/
def C3state : CPUDeviceManager :=
  { maxMemoryBytes := 1000, usedMemoryBytes := 400, functionCost := 400,
    functions := [("f", cpuFn)],
    buffers := [("f", CPUBuffer.ofRaw 4096 16 8192 16)] }

/-- A concrete execution context with no device bindings attached yet. -/
def C3ctx : ExecutionContext := ⟨5, none⟩

/-- C3 counterexample: running run id 7 against the loaded function `"f"`
performs no `getUnownedRequestBuffer` acquisition keyed by the run
identifier — the dispatcher reads the buffers directly, so the claim's
acquire/release mechanism does not occur. -/
theorem C3_counterexample :
    ¬ ∃ e, runFunctionImpl C3state 7 "f" C3ctx = some e ∧
        PoolOp.acquire 7 ∈ e.poolOps := by
  rintro ⟨e, he, hm⟩
  have h2 : runFunctionImpl C3state 7 "f" C3ctx
      = some ⟨C3state, [(7, RunOutcome.success, ⟨5, some (4096, 8192)⟩)], []⟩ := by
    decide
  rw [h2, Option.some_inj] at he
  subst he
  simp at hm

/-- C3 (amended): a run against a loaded function whose buffer is present
invokes `resultCB` exactly once regardless of execution outcome and leaves
the device state — including every buffer pool's free/busy partition —
unchanged; however the dispatcher performs no acquire/release pool
operation keyed by the run identifier: it reads the function's buffers
directly. -/
theorem C3_run_frame (st : CPUDeviceManager) (id : Nat) (name : String)
    (ctx : ExecutionContext) (func : CompiledFunction) (buf : CPUBuffer)
    (hf : lookupEntry st.functions name = some func)
    (hb : lookupEntry st.buffers name = some buf) :
    ∃ e, runFunctionImpl st id name ctx = some e ∧
      e.finalState = st ∧ e.callbacks.length = 1 ∧ e.poolOps = [] := by
  unfold runFunctionImpl
  rw [hf, hb]
  exact ⟨_, rfl, rfl, rfl, rfl⟩

/-- C3 witness: the amended statement at run id 7 on the concrete loaded
device. -/
theorem C3_run_frame_witness :
    ∃ e, runFunctionImpl C3state 7 "f" C3ctx = some e ∧
      e.finalState = C3state ∧ e.callbacks.length = 1 ∧ e.poolOps = [] :=
  C3_run_frame C3state 7 "f" C3ctx cpuFn (CPUBuffer.ofRaw 4096 16 8192 16)
    (by decide) (by decide)

/-- A compiled function whose compile backend is not `"CPU"`. -/
def wrongFn : CompiledFunction :=
  { compileBackendName := "Interpreter"
    bundle := { activationsSize := 16, mutableWeightSize := 16,
                symbolTable := [], constants := true }
    executeResult := none }

/-- Device with `"b"` already registered. -/
def C5state : CPUDeviceManager :=
  { maxMemoryBytes := 1000, usedMemoryBytes := 400, functionCost := 400,
    functions := [("b", cpuFn)],
    buffers := [("b", CPUBuffer.ofRaw 4096 16 8192 16)] }

/-- C5 counterexample: the batch `[("a", wrongFn), ("b", cpuFn)]` (in the
batch map's iteration order) contains the already-registered name `"b"`,
yet the load fails with the wrong-backend error for `"a"`, not with
`DuplicateFunction`. -/
theorem C5_counterexample :
    (lookupEntry C5state.functions "b").isSome ∧
    ¬ ∃ n, (addNetworkImpl allocOK C5state
        [("a", wrongFn), ("b", cpuFn)]).callbacks
        = [ReadyResult.duplicateFunction n] := by
  constructor
  · decide
  · rintro ⟨n, hn⟩
    have h2 : (addNetworkImpl allocOK C5state
        [("a", wrongFn), ("b", cpuFn)]).callbacks
        = [ReadyResult.wrongBackend "a"] := by decide
    rw [h2] at hn
    simp at hn

/-- The validation loop reports the duplicate of the first offending
function when every function of the batch targets the CPU backend. -/
theorem addNetworkCheck_duplicate
    (registry : List (String × CompiledFunction)) :
    ∀ batch : List (String × CompiledFunction),
    (∃ nf ∈ batch, (lookupEntry registry nf.1).isSome) →
    (∀ nf ∈ batch, nf.2.compileBackendName = "CPU") →
    ∃ n, (lookupEntry registry n).isSome ∧
      addNetworkCheck registry batch
        = some (ReadyResult.duplicateFunction n)
  | [], hdup, _ => absurd hdup (by simp)
  | (name, func) :: rest, hdup, hback => by
    by_cases hn : (lookupEntry registry name).isSome
    · exact ⟨name, hn, by simp [addNetworkCheck, hn]⟩
    · have hb : func.compileBackendName = "CPU" :=
        hback (name, func) (by simp)
      have hrest : ∃ nf ∈ rest, (lookupEntry registry nf.1).isSome := by
        rcases hdup with ⟨nf, hmem, hsome⟩
        rcases List.mem_cons.mp hmem with heq | hmem2
        · subst heq
          exact absurd hsome hn
        · exact ⟨nf, hmem2, hsome⟩
      obtain ⟨n, hns, hchk⟩ := addNetworkCheck_duplicate registry rest hrest
        (fun nf hm => hback nf (List.mem_cons_of_mem _ hm))
      exact ⟨n, hns, by simp [addNetworkCheck, hn, hb, hchk]⟩

/-- C5 (amended): a load whose batch contains an already-registered name
fails with the duplicate-function error for a registered name and leaves
the registry, the buffer map and `usedMemoryBytes_` unchanged — provided
every function of the batch targets the CPU backend (otherwise the
per-function backend check can report the wrong-backend error for an
earlier batch entry instead). -/
theorem C5_load_duplicate (alloc : Nat → Option Nat) (st : CPUDeviceManager)
    (batch : List (String × CompiledFunction))
    (hdup : ∃ nf ∈ batch, (lookupEntry st.functions nf.1).isSome)
    (hback : ∀ nf ∈ batch, nf.2.compileBackendName = "CPU") :
    ∃ n, (lookupEntry st.functions n).isSome ∧
      addNetworkImpl alloc st batch
        = ⟨st, [ReadyResult.duplicateFunction n]⟩ := by
  obtain ⟨n, hns, hchk⟩ := addNetworkCheck_duplicate st.functions batch hdup hback
  exact ⟨n, hns, by simp [addNetworkImpl, hchk]⟩

/-- C5 witness: loading `[("b", cpuFn)]` on the device that already has
`"b"` registered fails with the duplicate error and changes nothing. -/
theorem C5_load_duplicate_witness :
    ∃ n, (lookupEntry C5state.functions n).isSome ∧
      addNetworkImpl allocOK C5state [("b", cpuFn)]
        = ⟨C5state, [ReadyResult.duplicateFunction n]⟩ :=
  C5_load_duplicate allocOK C5state [("b", cpuFn)] (by decide) (by decide)

/-- Lookup finds an entry appended at the end of a name-keyed map. -/
theorem lookupEntry_append_self {α : Type} (l : List (String × α))
    (n : String) (v : α) : (lookupEntry (l ++ [(n, v)]) n).isSome = true := by
  induction l with
  | nil => simp [lookupEntry]
  | cons kv rest ih =>
    obtain ⟨k, w⟩ := kv
    by_cases hk : k = n <;> simp [lookupEntry, hk, ih]

/-- Unsigned 64-bit round trip: adding and then subtracting the same
in-range amount restores an in-range counter. -/
theorem sub64_add64 (u c : Nat) (hu : u < U64MOD) (hc : c < U64MOD) :
    sub64 (add64 u c) c = u := by
  unfold sub64 add64 U64MOD at *
  omega

/-- The validation loop never reports success. -/
theorem addNetworkCheck_ne_success
    (registry : List (String × CompiledFunction)) :
    ∀ batch, addNetworkCheck registry batch ≠ some ReadyResult.success
  | [], h => by simp [addNetworkCheck] at h
  | (name, func) :: rest, h => by
    by_cases hn : (lookupEntry registry name).isSome
    · simp [addNetworkCheck, hn] at h
    · by_cases hb : func.compileBackendName = "CPU"
      · simp [addNetworkCheck, hn, hb] at h
        exact addNetworkCheck_ne_success registry rest h
      · simp [addNetworkCheck, hn, hb] at h

/-- C7: a single-function load that reports success, followed by an evict
of that function, returns `usedMemoryBytes_` and `getAvailableMemory()`
exactly to their pre-load values. -/
theorem C7_round_trip (alloc : Nat → Option Nat) (st : CPUDeviceManager)
    (name : String) (func : CompiledFunction)
    (hu : st.usedMemoryBytes < U64MOD) (hc : st.functionCost < U64MOD)
    (hsucc : (addNetworkImpl alloc st [(name, func)]).callbacks
        = [ReadyResult.success]) :
    (evictNetworkImpl (addNetworkImpl alloc st [(name, func)]).finalState
        name).1.usedMemoryBytes = st.usedMemoryBytes ∧
    getAvailableMemory (evictNetworkImpl
        (addNetworkImpl alloc st [(name, func)]).finalState name).1
      = getAvailableMemory st := by
  cases h1 : addNetworkCheck st.functions [(name, func)] with
  | some e =>
    simp [addNetworkImpl, h1] at hsucc
    rw [hsucc] at h1
    exact absurd h1 (addNetworkCheck_ne_success st.functions [(name, func)])
  | none =>
    by_cases h2 : add64 st.usedMemoryBytes st.functionCost > st.maxMemoryBytes
    · simp [addNetworkImpl, h1, h2] at hsucc
    · have hfs : (addNetworkImpl alloc st [(name, func)]).finalState
          = (addNetworkLoadLoop alloc st [(name, func)]).1 := by
        simp [addNetworkImpl, h1, h2]
      have h3 : ((addNetworkLoadLoop alloc st [(name, func)]).1).usedMemoryBytes
          = add64 st.usedMemoryBytes st.functionCost := by
        simp [addNetworkLoadLoop]
      have h4 : ((addNetworkLoadLoop alloc st [(name, func)]).1).functionCost
          = st.functionCost := by
        simp [addNetworkLoadLoop]
      have h5 : ((addNetworkLoadLoop alloc st [(name, func)]).1).maxMemoryBytes
          = st.maxMemoryBytes := by
        simp [addNetworkLoadLoop]
      have h6 : ((addNetworkLoadLoop alloc st [(name, func)]).1).functions
          = st.functions ++ [(name,
            if func.bundle.constants then func
            else { func with
                    bundle := { func.bundle with constants := true } })] := by
        simp [addNetworkLoadLoop]
      have hlook : (lookupEntry ((addNetworkLoadLoop alloc st
          [(name, func)]).1).functions name).isSome = true := by
        rw [h6]
        exact lookupEntry_append_self _ _ _
      rw [hfs]
      constructor
      · simp [evictNetworkImpl, hlook, h3, h4,
          sub64_add64 st.usedMemoryBytes st.functionCost hu hc]
      · simp [getAvailableMemory, evictNetworkImpl, hlook, h3, h4, h5,
          sub64_add64 st.usedMemoryBytes st.functionCost hu hc]

/-- C7 witness: loading `"a"` on an empty device with capacity 1000 and
cost 400 succeeds, and evicting it restores the counters. -/
theorem C7_round_trip_witness :
    (evictNetworkImpl (addNetworkImpl allocOK
        ⟨1000, 0, 400, [], []⟩ [("a", cpuFn)]).finalState
        "a").1.usedMemoryBytes = (⟨1000, 0, 400, [], []⟩ :
          CPUDeviceManager).usedMemoryBytes ∧
    getAvailableMemory (evictNetworkImpl (addNetworkImpl allocOK
        ⟨1000, 0, 400, [], []⟩ [("a", cpuFn)]).finalState "a").1
      = getAvailableMemory ⟨1000, 0, 400, [], []⟩ :=
  C7_round_trip allocOK ⟨1000, 0, 400, [], []⟩ "a" cpuFn
    (by decide) (by decide) (by decide)

/-- Device with capacity 1000, one byte used, flat cost 1, nothing loaded. -/
def C8state : CPUDeviceManager :=
  { maxMemoryBytes := 1000, usedMemoryBytes := 1, functionCost := 1,
    functions := [], buffers := [] }

/-- C8 counterexample: at `estimate = 2^64 - 1` the source's `uint64_t` sum
`usedMemoryBytes_ + estimate` wraps around to 0, so `isMemoryAvailable`
returns true although the real sum exceeds `maxMemoryBytes_`. -/
theorem C8_counterexample :
    isMemoryAvailable C8state (U64MOD - 1) = true ∧
    ¬ (C8state.usedMemoryBytes + (U64MOD - 1) ≤ C8state.maxMemoryBytes) := by
  constructor
  · decide
  · decide

/-- A callback sequence ending in the success invocation is never the
single out-of-memory invocation. -/
theorem append_success_ne_oom (l : List ReadyResult) :
    l ++ [ReadyResult.success] ≠ [ReadyResult.outOfDeviceMemory] := by
  intro h
  cases l with
  | nil => simp at h
  | cons a as =>
    have hlen := congrArg List.length h
    simp at hlen

/-- C8 (amended): whenever `usedMemoryBytes_ + estimate` does not overflow
`uint64_t`, `isMemoryAvailable estimate` is true exactly when
`usedMemoryBytes_ + estimate ≤ maxMemoryBytes_`; and for any batch that
passes validation, `addNetworkImpl` reports its capacity failure exactly
when `isMemoryAvailable functionCost_` is false — the two use the same
comparison.  (`isMemoryAvailable` is a pure accessor: it takes the state
and returns only a Bool, so it has no ledger side effect.) -/
theorem C8_fits (st : CPUDeviceManager) (estimate : Nat)
    (alloc : Nat → Option Nat) (batch : List (String × CompiledFunction))
    (h : st.usedMemoryBytes + estimate < U64MOD)
    (hchk : addNetworkCheck st.functions batch = none) :
    (isMemoryAvailable st estimate = true
        ↔ st.usedMemoryBytes + estimate ≤ st.maxMemoryBytes) ∧
    ((addNetworkImpl alloc st batch).callbacks
        = [ReadyResult.outOfDeviceMemory]
      ↔ isMemoryAvailable st st.functionCost = false) := by
  constructor
  · simp [isMemoryAvailable, add64, Nat.mod_eq_of_lt h]
  · by_cases h2 : add64 st.usedMemoryBytes st.functionCost
        > st.maxMemoryBytes
    · simp [addNetworkImpl, hchk, h2, isMemoryAvailable]
    · simp [addNetworkImpl, hchk, h2, isMemoryAvailable]
      exact append_success_ne_oom _

/-- C8 witness: on the concrete device, a small estimate gives the exact
comparison on both sides, and the empty validated batch ties the admission
check to `isMemoryAvailable`. -/
theorem C8_fits_witness :
    (isMemoryAvailable C8state 10 = true
        ↔ C8state.usedMemoryBytes + 10 ≤ C8state.maxMemoryBytes) ∧
    ((addNetworkImpl allocOK C8state []).callbacks
        = [ReadyResult.outOfDeviceMemory]
      ↔ isMemoryAvailable C8state C8state.functionCost = false) :=
  C8_fits C8state 10 allocOK [] (by decide) (by decide)
